import Mathlib

/-!
# Verification of the YouTube-to-Summary pipeline orchestrator

Shallow embedding of `src/youtube_to_summary.py` (class
`YouTubeToSummaryPipeline`) and of the URL-validation logic of its callers
(`main` in the same file, and the HTTP endpoint in `src/app.py`).

Modelling conventions:
* The filesystem state visible to the pipeline (the workspace directory and
  the two artifact files inside it, plus the number of unreleased moviepy
  clip handles) is a record `PState`; ghost invocation counters for each
  stage are carried in the same record so that "stage was never invoked"
  claims are statable.
* Each effectful stage takes an oracle value describing the behaviour of
  its external collaborator (yt-dlp, moviepy, the remote HTTP services):
  whether the call succeeds, fails with an exception that the stage's own
  `try/except` catches, or raises outside the stage's internal handler so
  that the exception escapes to the orchestrator.  Stages return
  `Except PyExc (α × PState)`: the `.error` constructor is a Python
  exception propagating past the stage boundary, carrying the state at the
  point of the raise.
* Python dictionaries are association lists; the JSON bodies returned by
  the remote services are values of an inductive `Json` type, and Python
  truthiness (`if not transcription:`) is the function `pyTruthy`.
-/

/-- A Python exception escaping a function boundary, identified by its
message (`str(e)` in the source). -/
abbrev PyExc := String

/-- JSON values as produced by `response.json()` in the source. -/
inductive Json where
  | null : Json
  | bool (b : Bool) : Json
  | num (n : Int) : Json
  | str (s : String) : Json
  | arr (elts : List Json) : Json
  | obj (fields : List (String × Json)) : Json

/-- A Python dict with string keys, as returned by `process_youtube_url`
(`{"content": report}` or `{"error": msg}`). -/
abbrev PyDict := List (String × Json)

/-- Python truthiness of a JSON value (`bool(x)`): `None`, `False`, `0`,
`""`, `[]` and the empty dict are falsy, everything else truthy. -/
def pyTruthy : Json → Bool
  | .null => false
  | .bool b => b
  | .num n => n != 0
  | .str s => !s.isEmpty
  | .arr elts => !elts.isEmpty
  | .obj fields => !fields.isEmpty

mutual

/-- Python `repr()` of a parsed-JSON value (string escaping inside quotes
is not modelled; no claim depends on it). -/
def pyRepr : Json → String
  | .null => "None"
  | .bool true => "True"
  | .bool false => "False"
  | .num n => toString n
  | .str s => "\x27" ++ s ++ "\x27"
  | .arr elts => "[" ++ pyReprElems elts ++ "]"
  | .obj fields => "\x7b" ++ pyReprFields fields ++ "\x7d"

/-- Comma-separated `repr` of the elements of a Python list. -/
def pyReprElems : List Json → String
  | [] => ""
  | [v] => pyRepr v
  | v :: rest => pyRepr v ++ ", " ++ pyReprElems rest

/-- Comma-separated `repr` of the entries of a Python dict. -/
def pyReprFields : List (String × Json) → String
  | [] => ""
  | [(k, v)] => "\x27" ++ k ++ "\x27: " ++ pyRepr v
  | (k, v) :: rest => "\x27" ++ k ++ "\x27: " ++ pyRepr v ++ ", " ++ pyReprFields rest

end

/-- Python `str()` of a parsed-JSON value: a string prints as itself, any
other value prints as its `repr` (this is exactly how `str(result)` behaves
on the result of `response.json()`). -/
def pyStr : Json → String
  | .str s => s
  | j => pyRepr j

/-- Python `in` / subscript on a dict: the value at the first matching key
(dict keys are unique, so first-match lookup is exact). -/
def dictLookup (d : List (String × Json)) (k : String) : Option Json :=
  (d.find? fun p => p.1 == k).map (·.2)

/-- Python substring test `needle in hay` on strings. -/
def pyInStr (needle hay : String) : Bool :=
  decide (needle.toList <:+: hay.toList)

/-- Filesystem-and-ghost state of one `YouTubeToSummaryPipeline` instance.
`dirExists`, `hasVideo`, `hasAudio` describe `self.temp_dir` and the two
artifact files inside it; `openClips` counts moviepy clip handles that were
opened and never closed; the `n…` fields are ghost invocation counters. -/
structure PState where
  dirExists : Bool
  hasVideo : Bool
  hasAudio : Bool
  openClips : Nat
  nSetup : Nat
  nDownload : Nat
  nConvert : Nat
  nStt : Nat
  nSum : Nat
  nReport : Nat
  nCleanup : Nat
deriving DecidableEq

/-- A filesystem on which nothing of the pipeline exists yet. -/
def emptyFs : PState :=
  { dirExists := false, hasVideo := false, hasAudio := false, openClips := 0
    nSetup := 0, nDownload := 0, nConvert := 0, nStt := 0, nSum := 0
    nReport := 0, nCleanup := 0 }

/-- The video artifact exists: `os.path.exists(video_path)`. -/
def videoExists (st : PState) : Bool := st.dirExists && st.hasVideo

/-- The audio artifact exists: `os.path.exists(audio_path)`. -/
def audioExists (st : PState) : Bool := st.dirExists && st.hasAudio

/-- `_setup_temp_directory` (source lines 41-46): if the directory exists,
`shutil.rmtree` it; then `os.makedirs` it, leaving a fresh empty
directory.  Runs once, from `__init__`. -/
def setup_temp_directory (st : PState) : PState :=
  { st with dirExists := true, hasVideo := false, hasAudio := false
            nSetup := st.nSetup + 1 }

/-- Oracle for one `download_youtube_video` call (source lines 48-86).
`prepRaise`: an exception is raised outside the stage's internal
`try` (e.g. the initial `print` on a broken stdout) and escapes to the
orchestrator.  `innerRaise`: yt-dlp raises inside the `try`; the stage's
`except Exception` catches it and returns `False`.  `ok`: extraction and
download succeed and the video artifact is written (yt-dlp creates the
output directory for its output template as needed). -/
inductive FetchExec where
  | prepRaise (msg : String)
  | innerRaise (msg : String)
  | ok
deriving DecidableEq

/-- `download_youtube_video` (source lines 48-86): returns `True` after a
successful download, `False` when yt-dlp raised (caught internally). -/
def download_youtube_video (_url : String) (ex : FetchExec) (st0 : PState) :
    Except (PyExc × PState) (Bool × PState) :=
  let st := { st0 with nDownload := st0.nDownload + 1 }
  match ex with
  | .prepRaise msg => .error (msg, st)
  | .innerRaise _ => .ok (false, st)
  | .ok => .ok (true, { st with dirExists := true, hasVideo := true })

/-- Oracle for one `convert_video_to_audio` call (source lines 88-115).
`loadRaise`: `mp.VideoFileClip` raises before a clip handle is acquired.
`writeRaise`: the clip loads but `write_audiofile` raises; both are caught
by the stage's `except Exception`.  `ok`: load, write and `close` all
succeed. -/
inductive ConvExec where
  | prepRaise (msg : String)
  | loadRaise (msg : String)
  | writeRaise (msg : String)
  | ok
deriving DecidableEq

/-- `convert_video_to_audio` (source lines 88-115): checks the video
artifact exists, then loads the clip, writes the audio file and closes the
clip.  On `writeRaise` the clip was acquired but `clip.close()` on line 108
is never reached; the `except` handler returns `False` with the handle
still open, which the model records as `openClips + 1`. -/
def convert_video_to_audio (ex : ConvExec) (st0 : PState) :
    Except (PyExc × PState) (Bool × PState) :=
  let st := { st0 with nConvert := st0.nConvert + 1 }
  match ex with
  | .prepRaise msg => .error (msg, st)
  | ex' =>
    if videoExists st = false then
      .ok (false, st)
    else
      match ex' with
      | .prepRaise msg => .error (msg, st)
      | .loadRaise _ => .ok (false, st)
      | .writeRaise _ => .ok (false, { st with openClips := st.openClips + 1 })
      | .ok => .ok (true, { st with hasAudio := true })

/-- Oracle for one remote-service call (`speech_to_text`,
`summarize_text`, `generate_report`).  `prepRaise`: an exception outside
the stage's internal `try` escapes to the orchestrator.  `transportErr`:
`requests.post` or `raise_for_status` raises inside the `try`; caught,
the stage returns `None`.  `response`: a 2xx response whose JSON body is
the given object. -/
inductive RemoteExec where
  | prepRaise (msg : String)
  | transportErr (msg : String)
  | response (body : List (String × Json))


/-- Response-field probing of `speech_to_text` (source lines 148-157):
`content`, then `text`, then `transcription`, else `str(result)`. -/
def extract_transcription (result : List (String × Json)) : Json :=
  match dictLookup result "content" with
  | some v => v
  | none =>
    match dictLookup result "text" with
    | some v => v
    | none =>
      match dictLookup result "transcription" with
      | some v => v
      | none => .str (pyStr (.obj result))

/-- Response-field probing of `summarize_text` (source lines 196-204):
`content`, then `summary`, then `text`, else `str(result)`. -/
def extract_summary (result : List (String × Json)) : Json :=
  match dictLookup result "content" with
  | some v => v
  | none =>
    match dictLookup result "summary" with
    | some v => v
    | none =>
      match dictLookup result "text" with
      | some v => v
      | none => .str (pyStr (.obj result))

/-- Response-field probing of `generate_report` (source lines 246-254):
`content`, then `text`, then `generated_text`, else `str(result)`. -/
def extract_report (result : List (String × Json)) : Json :=
  match dictLookup result "content" with
  | some v => v
  | none =>
    match dictLookup result "text" with
    | some v => v
    | none =>
      match dictLookup result "generated_text" with
      | some v => v
      | none => .str (pyStr (.obj result))

/-- `speech_to_text` (source lines 117-164): fails with `None` when the
audio artifact is absent or the transport raised; on a 2xx response returns
the probed payload field. -/
def speech_to_text (ex : RemoteExec) (st0 : PState) :
    Except (PyExc × PState) (Option Json × PState) :=
  let st := { st0 with nStt := st0.nStt + 1 }
  match ex with
  | .prepRaise msg => .error (msg, st)
  | ex' =>
    if audioExists st = false then
      .ok (none, st)
    else
      match ex' with
      | .prepRaise msg => .error (msg, st)
      | .transportErr _ => .ok (none, st)
      | .response body => .ok (some (extract_transcription body), st)

/-- `summarize_text` (source lines 166-211): posts the transcript and
returns the probed payload field, or `None` on a transport error. -/
def summarize_text (_text : Json) (ex : RemoteExec) (st0 : PState) :
    Except (PyExc × PState) (Option Json × PState) :=
  let st := { st0 with nSum := st0.nSum + 1 }
  match ex with
  | .prepRaise msg => .error (msg, st)
  | .transportErr _ => .ok (none, st)
  | .response body => .ok (some (extract_summary body), st)

/-- `generate_report` (source lines 213-261): posts the summary as
`{type: "report", topic: summary}` and returns the probed payload field,
or `None` on a transport error. -/
def generate_report (_summary : Json) (ex : RemoteExec) (st0 : PState) :
    Except (PyExc × PState) (Option Json × PState) :=
  let st := { st0 with nReport := st0.nReport + 1 }
  match ex with
  | .prepRaise msg => .error (msg, st)
  | .transportErr _ => .ok (none, st)
  | .response body => .ok (some (extract_report body), st)

/-- `cleanup` (source lines 263-267): `shutil.rmtree(self.temp_dir)` when
the directory exists, otherwise nothing.  This is the orchestrator-level
view in which the recursive delete itself completes; `cleanupFallible`
below refines it with the possibility that `rmtree` raises. -/
def cleanup (st0 : PState) : PState :=
  let st := { st0 with nCleanup := st0.nCleanup + 1 }
  if st.dirExists then
    { st with dirExists := false, hasVideo := false, hasAudio := false }
  else
    st

/-- `cleanup` (source lines 263-267) with the fallibility of
`shutil.rmtree` made explicit: `rmtree` is called without
`ignore_errors` and outside any `try/except`, so when the recursive
delete fails (`rmtreeRaises`), the `OSError` propagates to `cleanup`'s
caller; the source contains no handler and no logging for this case. -/
def cleanupFallible (rmtreeRaises : Bool) (st0 : PState) :
    Except PyExc PState :=
  let st := { st0 with nCleanup := st0.nCleanup + 1 }
  if st.dirExists then
    if rmtreeRaises then .error "OSError"
    else .ok { st with dirExists := false, hasVideo := false, hasAudio := false }
  else
    .ok st

/-- Oracles for the five stages of one `process_youtube_url` run. -/
structure Env where
  fetch : FetchExec
  conv : ConvExec
  stt : RemoteExec
  summ : RemoteExec
  rep : RemoteExec


/-- The literal dict `{"error": msg}` returned by the orchestrator. -/
def errDict (msg : String) : PyDict := [("error", .str msg)]

/-- The `try`-block of `process_youtube_url` (source lines 282-310): the
five stages in order, each failure short-circuiting with its fixed error
dict; an exception escaping a stage aborts the block. -/
def runBody (url : String) (env : Env) (st : PState) :
    Except (PyExc × PState) (PyDict × PState) :=
  match download_youtube_video url env.fetch st with
  | .error e => .error e
  | .ok (dlOk, st1) =>
    if dlOk = false then .ok (errDict "Failed to download YouTube video", st1)
    else
      match convert_video_to_audio env.conv st1 with
      | .error e => .error e
      | .ok (cvOk, st2) =>
        if cvOk = false then .ok (errDict "Failed to convert video to audio", st2)
        else
          match speech_to_text env.stt st2 with
          | .error e => .error e
          | .ok (none, st3) => .ok (errDict "Failed to convert speech to text", st3)
          | .ok (some transcription, st3) =>
            if pyTruthy transcription = false then
              .ok (errDict "Failed to convert speech to text", st3)
            else
              match summarize_text transcription env.summ st3 with
              | .error e => .error e
              | .ok (none, st4) => .ok (errDict "Failed to generate summary", st4)
              | .ok (some summary, st4) =>
                if pyTruthy summary = false then
                  .ok (errDict "Failed to generate summary", st4)
                else
                  match generate_report summary env.rep st4 with
                  | .error e => .error e
                  | .ok (none, st5) => .ok (errDict "Failed to generate report", st5)
                  | .ok (some report, st5) =>
                    if pyTruthy report = false then
                      .ok (errDict "Failed to generate report", st5)
                    else
                      .ok ([("content", report)], st5)

/-- `process_youtube_url` (source lines 269-314): the `try`-block, the
`except Exception` handler converting an escaped stage exception into the
generic error dict, and the `finally` running `cleanup` before the value
is returned. -/
def process_youtube_url (url : String) (env : Env) (st : PState) :
    PyDict × PState :=
  match runBody url env st with
  | .ok (d, st') => (d, cleanup st')
  | .error (msg, st') =>
    (errDict ("Pipeline failed with unexpected error: " ++ msg), cleanup st')

/-- The URL check shared by `main` (source line 333) and the HTTP endpoint
(`src/app.py` line 91): the string contains `youtube.com` or `youtu.be`. -/
def url_is_youtube (u : String) : Bool :=
  pyInStr "youtube.com" u || pyInStr "youtu.be" u

/-- Outcome of the `main` entry point (source lines 317-335): bail out on a
missing URL, bail out on a non-YouTube URL, or run the pipeline. -/
inductive MainOut where
  | noUrl
  | invalidUrl
  | ran (result : PyDict)


/-- URL handling of `main` (source lines 322-344): the empty-URL check and
the YouTube-marker check run before a pipeline is ever constructed; only
past both does `main` instantiate `YouTubeToSummaryPipeline` (running
`setup_temp_directory` on the ambient filesystem) and call
`process_youtube_url`. -/
def main_flow (url : String) (env : Env) (fs : PState) : MainOut × PState :=
  if url.isEmpty then (.noUrl, fs)
  else if url_is_youtube url = false then (.invalidUrl, fs)
  else
    let r := process_youtube_url url env (setup_temp_directory fs)
    (.ran r.1, r.2)

/-- `__init__`'s credential selection (source line 27):
`api_key or os.getenv('API_KEY', DEFAULT)`.  `apiKey` is the constructor
argument (`none` models Python `None`), `envApiKey` the value of the
`API_KEY` environment variable (`none` when unset). -/
def init_api_key (apiKey : Option String) (envApiKey : Option String) : String :=
  let fallback :=
    match envApiKey with
    | some v => v
    | none => "YWYwNTc0ZjUtOGE3NS00ZTM1LTk1NWUtMmRhYzVhOWYzZjNk"
  match apiKey with
  | none => fallback
  | some s => if s.isEmpty then fallback else s

/-! ## Fixtures: concrete runs used by witnesses and counterexamples -/

/-- The state of a fresh pipeline instance: `__init__` has just run
`_setup_temp_directory` on an empty filesystem. -/
def st0 : PState := setup_temp_directory emptyFs

/-- A remote service answering 2xx with `{"content": s}`. -/
def respContent (s : String) : RemoteExec := .response [("content", .str s)]

/-- Oracles for a run in which all five stages succeed. -/
def envOk : Env :=
  { fetch := .ok, conv := .ok, stt := respContent "transcript"
    summ := respContent "summary", rep := respContent "report text" }

/-- Oracles for a run in which yt-dlp fails (caught by the fetch stage). -/
def envDlFail : Env := { envOk with fetch := .innerRaise "HTTP Error 404" }

/-- Oracles for a run in which an exception escapes the fetch stage. -/
def envBoom : Env := { envOk with fetch := .prepRaise "boom" }

/-- A state in which the workspace and the video artifact exist. -/
def stVid : PState := { emptyFs with dirExists := true, hasVideo := true }

/-- The remote stage returns an empty text: either the transport raised
(the stage returns `None`) or a 2xx response whose probed payload field is
Python-falsy (the empty string). -/
def yieldsEmptyText (ex : RemoteExec)
    (extract : List (String × Json) → Json) : Prop :=
  (∃ m, ex = .transportErr m) ∨
    (∃ r, ex = .response r ∧ pyTruthy (extract r) = false)

/-- The remote stage returns a Python-truthy payload. -/
def yieldsText (ex : RemoteExec)
    (extract : List (String × Json) → Json) : Prop :=
  ∃ r, ex = .response r ∧ pyTruthy (extract r) = true

/-- State component of a stage or run-body result, whether it returned or
raised. -/
def exceptState : Except (PyExc × PState) (α × PState) → PState
  | .ok (_, s) => s
  | .error (_, s) => s

/-! ## Helper lemmas -/

theorem exceptState_ok (a : α) (s : PState) :
    exceptState (.ok (a, s)) = s := rfl

theorem exceptState_error (m : PyExc) (s : PState) :
    exceptState (Except.error (m, s) : Except (PyExc × PState) (α × PState)) = s := rfl

theorem cleanup_spec (st : PState) :
    (cleanup st).dirExists = false ∧
    (cleanup st).nCleanup = st.nCleanup + 1 ∧
    (cleanup st).nSetup = st.nSetup := by
  cases h : st.dirExists <;> simp [cleanup, h]

theorem process_snd (url : String) (env : Env) (st : PState) :
    (process_youtube_url url env st).2 =
      cleanup (exceptState (runBody url env st)) := by
  cases h : runBody url env st with
  | error e => obtain ⟨m, s⟩ := e; simp [process_youtube_url, h, exceptState]
  | ok p => obtain ⟨d, s⟩ := p; simp [process_youtube_url, h, exceptState]

theorem runBody_nCleanup (url : String) (env : Env) (st : PState) :
    (exceptState (runBody url env st)).nCleanup = st.nCleanup := by
  obtain ⟨f, c, s1, s2, s3⟩ := env
  unfold runBody download_youtube_video convert_video_to_audio
    speech_to_text summarize_text generate_report
  cases f <;> cases c <;> cases s1 <;> cases s2 <;> cases s3 <;>
    simp [videoExists, audioExists, errDict, exceptState] <;>
    (repeat' split) <;>
    (split_ifs at * <;> (rename_i hh; obtain ⟨-, rfl⟩ := hh; rfl))

theorem runBody_nSetup (url : String) (env : Env) (st : PState) :
    (exceptState (runBody url env st)).nSetup = st.nSetup := by
  obtain ⟨f, c, s1, s2, s3⟩ := env
  unfold runBody download_youtube_video convert_video_to_audio
    speech_to_text summarize_text generate_report
  cases f <;> cases c <;> cases s1 <;> cases s2 <;> cases s3 <;>
    simp [videoExists, audioExists, errDict, exceptState] <;>
    (repeat' split) <;>
    (split_ifs at * <;> (rename_i hh; obtain ⟨-, rfl⟩ := hh; rfl))

theorem runBody_ok_shape (url : String) (env : Env) (st : PState)
    (d : PyDict) (st' : PState) (h : runBody url env st = .ok (d, st')) :
    (∃ report, d = [("content", report)]) ∨
      ∃ msg, d = [("error", Json.str msg)] := by
  unfold runBody at h
  repeat' split at h
  all_goals (try simp_all [errDict])
  all_goals (obtain ⟨rfl, -⟩ := h)
  all_goals (first | exact Or.inl ⟨_, rfl⟩ | exact Or.inr ⟨_, rfl⟩)

/-! ## Claim theorems -/

/-- C1: for every input URL and every behaviour of the five stages,
`process_youtube_url` returns a dictionary with exactly one key — either
`content` with the final report or `error` with a failure reason — never
both and never neither; and an uncaught exception escaping a stage (a
`.error` outcome of the `try`-block `runBody`) is converted by the
orchestrator's `except Exception` handler into the generic
`Pipeline failed with unexpected error: …` error result instead of
propagating. -/
theorem C1_run_result_shape (url : String) (env : Env) (st : PState) :
    ((∃ report, (process_youtube_url url env st).1 = [("content", report)]) ∨
      (∃ msg, (process_youtube_url url env st).1 = [("error", Json.str msg)])) ∧
    (∀ msg stE, runBody url env st = .error (msg, stE) →
      (process_youtube_url url env st).1 =
        errDict ("Pipeline failed with unexpected error: " ++ msg)) := by
  constructor
  · cases h : runBody url env st with
    | error e =>
      obtain ⟨m, s⟩ := e
      exact Or.inr ⟨"Pipeline failed with unexpected error: " ++ m,
        by simp [process_youtube_url, h, errDict]⟩
    | ok p =>
      have hp : (process_youtube_url url env st).1 = p.1 := by
        simp [process_youtube_url, h]
      rw [hp]
      exact runBody_ok_shape url env st p.1 p.2 h
  · intro msg stE h
    simp [process_youtube_url, h]

/-- Witness for C1: in a concrete run whose fetch stage raises `boom`
outside its internal handler, the result is the single-key generic error
dictionary. -/
theorem C1_witness :
    ((∃ report, (process_youtube_url "u" envBoom st0).1 = [("content", report)]) ∨
      (∃ msg, (process_youtube_url "u" envBoom st0).1 = [("error", Json.str msg)])) ∧
    (process_youtube_url "u" envBoom st0).1 =
      errDict ("Pipeline failed with unexpected error: " ++ "boom") :=
  ⟨(C1_run_result_shape "u" envBoom st0).1,
    (C1_run_result_shape "u" envBoom st0).2 "boom"
      { st0 with nDownload := st0.nDownload + 1 } rfl⟩

/-- C2: for every run — success, stage failure at any stage, or an
exception escaping a stage — `cleanup` is invoked exactly once (the ghost
counter `nCleanup` grows by exactly one), as the final action of
`process_youtube_url` (it is applied to the terminal state of the
`try`-block, after the result dictionary is already determined), and the
workspace directory does not exist in the returned state. -/
theorem C2_teardown_once_and_dir_absent (url : String) (env : Env) (st : PState) :
    (process_youtube_url url env st).2.nCleanup = st.nCleanup + 1 ∧
    (process_youtube_url url env st).2.dirExists = false := by
  rw [process_snd]
  refine ⟨?_, (cleanup_spec _).1⟩
  rw [(cleanup_spec _).2.1, runBody_nCleanup]

/-- C4 (counterexample): calling `cleanup` on a state where the workspace
directory exists, in a scenario where `shutil.rmtree` fails, raises an
`OSError` to the caller — the source wraps the `rmtree` call in no
`try/except`, so "never raises an exception to its caller" is false. -/
theorem C4_counterexample :
    cleanupFallible true st0 = .error "OSError" := rfl

/-- C4 (amended): `cleanup` is idempotent — when the workspace directory is
absent it is a no-op that succeeds and cannot raise, whatever `rmtree`
would do — but it does not shield its caller from deletion errors: when
the directory exists and `rmtree` fails, the exception propagates
(nothing is caught or logged); when `rmtree` succeeds, the directory is
removed. -/
theorem C4_cleanup_idempotent_but_can_raise (b : Bool) (st : PState) :
    (st.dirExists = false →
      cleanupFallible b st = .ok { st with nCleanup := st.nCleanup + 1 }) ∧
    (st.dirExists = true → b = true →
      cleanupFallible b st = .error "OSError") ∧
    (st.dirExists = true → b = false →
      cleanupFallible b st =
        .ok { st with dirExists := false, hasVideo := false, hasAudio := false
                      nCleanup := st.nCleanup + 1 }) := by
  refine ⟨fun h => ?_, fun h hb => ?_, fun h hb => ?_⟩
  · simp [cleanupFallible, h]
  · subst hb; simp [cleanupFallible, h]
  · subst hb; simp [cleanupFallible, h]

/-- Witness for C4 (amended): on a state without a workspace directory the
call is a no-op that succeeds even when `rmtree` would fail. -/
theorem C4_witness :
    cleanupFallible true emptyFs = .ok { emptyFs with nCleanup := 1 } :=
  (C4_cleanup_idempotent_but_can_raise true emptyFs).1 rfl

/-- C10 (counterexample): with the constructor argument `api_key = ""` and
the environment variable `API_KEY` set to the empty string, the configured
credential is the empty string — `os.getenv` returns its default only when
the variable is unset, not when it is set to `""` — so "the credential is
never the empty string" is false. -/
theorem C10_counterexample :
    init_api_key (some "") (some "") = "" := rfl

/-- C10 (amended): for every falsy constructor argument (`None` or the
empty string), the configured credential is the value of the `API_KEY`
environment variable whenever that variable is set — including when it is
set to the empty string — and the hard-coded default token when it is
unset; the credential is therefore guaranteed non-empty only in the unset
case. -/
theorem C10_falsy_key_credential (k e : Option String)
    (hk : k = none ∨ k = some "") :
    (∀ v, e = some v → init_api_key k e = v) ∧
    (e = none →
      init_api_key k e = "YWYwNTc0ZjUtOGE3NS00ZTM1LTk1NWUtMmRhYzVhOWYzZjNk" ∧
      init_api_key k e ≠ "") := by
  rcases hk with rfl | rfl <;>
    refine ⟨fun v hv => ?_, fun he => ⟨?_, ?_⟩⟩ <;>
    subst_vars <;> first | rfl | decide

/-- Witness for C10 (amended): with a `None` constructor argument and
`API_KEY` set to `envtoken`, the credential is `envtoken`. -/
theorem C10_witness :
    init_api_key none (some "envtoken") = "envtoken" :=
  (C10_falsy_key_credential none (some "envtoken") (Or.inl rfl)).1 "envtoken" rfl

/-- C8 (counterexample): when the video artifact exists and
`write_audiofile` raises, `convert_video_to_audio` returns `False` with
one more unreleased clip handle than before — `clip.close()` (line 108)
is only reached on the success path, so "releases the handle on both
success and failure paths" is false. -/
theorem C8_counterexample :
    convert_video_to_audio (ConvExec.writeRaise "disk full") stVid =
      .ok (false, { stVid with nConvert := stVid.nConvert + 1
                               openClips := stVid.openClips + 1 }) ∧
    stVid.openClips + 1 ≠ stVid.openClips := ⟨rfl, by simp⟩

/-- C8 (amended): `convert_video_to_audio` releases the clip handle on its
success path (the open-clip count is unchanged after load, write and
close), and acquires none when loading the video raises; but when audio
writing raises after a successful load, the acquired handle is not
released before returning — the open-clip count grows by one. -/
theorem C8_clip_release (st : PState) (m : String)
    (hv : videoExists st = true) :
    convert_video_to_audio ConvExec.ok st =
      .ok (true, { st with nConvert := st.nConvert + 1, hasAudio := true }) ∧
    convert_video_to_audio (ConvExec.loadRaise m) st =
      .ok (false, { st with nConvert := st.nConvert + 1 }) ∧
    convert_video_to_audio (ConvExec.writeRaise m) st =
      .ok (false, { st with nConvert := st.nConvert + 1
                            openClips := st.openClips + 1 }) := by
  refine ⟨?_, ?_, ?_⟩ <;> simp [convert_video_to_audio, videoExists] at hv ⊢ <;>
    simp [hv]

/-- Witness for C8 (amended): concrete success and failure paths on a
state holding the video artifact. -/
theorem C8_witness :
    convert_video_to_audio ConvExec.ok stVid =
      .ok (true, { stVid with nConvert := stVid.nConvert + 1
                              hasAudio := true }) :=
  (C8_clip_release stVid "disk full" rfl).1

/-- C3 (counterexample): for the non-YouTube URL `https://example.com/x`,
`process_youtube_url` performs no validation at all: the Video Fetcher
stage IS invoked (its invocation counter rises from 0 to 1, i.e. a
download is attempted), and the result is the fetch-stage failure dict,
not a validation error — so "run() fails fast with a validation error
before any stage is invoked" is false. -/
theorem C3_counterexample :
    url_is_youtube "https://example.com/x" = false ∧
    (process_youtube_url "https://example.com/x" envDlFail st0).2.nDownload = 1 ∧
    (process_youtube_url "https://example.com/x" envDlFail st0).1 =
      errDict "Failed to download YouTube video" := by
  refine ⟨by decide, rfl, rfl⟩

/-- C3 (amended): URL validation lives in the callers, not in the
orchestrator: the CLI entry point `main` (and equally the HTTP endpoint in
`app.py`) rejects every non-empty URL lacking both YouTube domain markers
before a pipeline is ever constructed, so in that path no stage is invoked,
no download is attempted, and the ambient filesystem is untouched;
`process_youtube_url` itself performs no URL validation. -/
theorem C3_validation_in_callers (url : String) (env : Env) (fs : PState)
    (h1 : url.isEmpty = false) (h2 : url_is_youtube url = false) :
    main_flow url env fs = (.invalidUrl, fs) := by
  simp [main_flow, h1, h2]

/-- Witness for C3 (amended): `main` rejects `https://example.com/x`
without running anything. -/
theorem C3_witness :
    main_flow "https://example.com/x" envOk emptyFs = (.invalidUrl, emptyFs) :=
  C3_validation_in_callers "https://example.com/x" envOk emptyFs rfl (by decide)

/-- C5: whenever the Video Fetcher reports failure (yt-dlp raised and the
stage returned `False`), the run's result is exactly
`{"error": "Failed to download YouTube video"}` and none of the four later
stages is ever invoked: their invocation counters are unchanged. -/
theorem C5_fetch_failure_short_circuits (url : String) (env : Env)
    (st : PState) (msg : String) (h : env.fetch = .innerRaise msg) :
    (process_youtube_url url env st).1 =
      errDict "Failed to download YouTube video" ∧
    (process_youtube_url url env st).2.nConvert = st.nConvert ∧
    (process_youtube_url url env st).2.nStt = st.nStt ∧
    (process_youtube_url url env st).2.nSum = st.nSum ∧
    (process_youtube_url url env st).2.nReport = st.nReport := by
  have hb : runBody url env st =
      .ok (errDict "Failed to download YouTube video",
        { st with nDownload := st.nDownload + 1 }) := by
    unfold runBody download_youtube_video
    rw [h]
    rfl
  refine ⟨?_, ?_⟩
  · simp [process_youtube_url, hb]
  · rw [process_snd, hb]
    cases hd : st.dirExists <;> simp [exceptState, cleanup, hd]

/-- Witness for C5: a concrete run with a failing yt-dlp call. -/
theorem C5_witness :
    (process_youtube_url "u" envDlFail st0).1 =
      errDict "Failed to download YouTube video" ∧
    (process_youtube_url "u" envDlFail st0).2.nConvert = st0.nConvert ∧
    (process_youtube_url "u" envDlFail st0).2.nStt = st0.nStt ∧
    (process_youtube_url "u" envDlFail st0).2.nSum = st0.nSum ∧
    (process_youtube_url "u" envDlFail st0).2.nReport = st0.nReport :=
  C5_fetch_failure_short_circuits "u" envDlFail st0 "HTTP Error 404" rfl

theorem pyStr_obj_length (fields : List (String × Json)) :
    (pyStr (Json.obj fields)).length ≠ 0 := by
  have h : pyStr (Json.obj fields) = "\x7b" ++ pyReprFields fields ++ "\x7d" := by
    simp [pyStr, pyRepr]
  rw [h]
  simp only [String.length_append]
  have h1 : "\x7b".length = 1 := rfl
  have h2 : "\x7d".length = 1 := rfl
  omega

/-- C6: each remote client probes its candidate payload fields in the
documented order — transcription `content`/`text`/`transcription`,
summarization `content`/`summary`/`text`, report
`content`/`text`/`generated_text` — returns the first field present, and
on a response carrying none of its candidates returns the non-empty
`str()` of the whole body instead of failing. -/
theorem C6_response_probing_order (r : List (String × Json)) (v : Json) :
    (dictLookup r "content" = some v → extract_transcription r = v) ∧
    (dictLookup r "content" = none → dictLookup r "text" = some v →
      extract_transcription r = v) ∧
    (dictLookup r "content" = none → dictLookup r "text" = none →
      dictLookup r "transcription" = some v → extract_transcription r = v) ∧
    (dictLookup r "content" = none → dictLookup r "text" = none →
      dictLookup r "transcription" = none →
      extract_transcription r = .str (pyStr (.obj r)) ∧
        (pyStr (.obj r)).length ≠ 0) ∧
    (dictLookup r "content" = some v → extract_summary r = v) ∧
    (dictLookup r "content" = none → dictLookup r "summary" = some v →
      extract_summary r = v) ∧
    (dictLookup r "content" = none → dictLookup r "summary" = none →
      dictLookup r "text" = some v → extract_summary r = v) ∧
    (dictLookup r "content" = none → dictLookup r "summary" = none →
      dictLookup r "text" = none →
      extract_summary r = .str (pyStr (.obj r)) ∧
        (pyStr (.obj r)).length ≠ 0) ∧
    (dictLookup r "content" = some v → extract_report r = v) ∧
    (dictLookup r "content" = none → dictLookup r "text" = some v →
      extract_report r = v) ∧
    (dictLookup r "content" = none → dictLookup r "text" = none →
      dictLookup r "generated_text" = some v → extract_report r = v) ∧
    (dictLookup r "content" = none → dictLookup r "text" = none →
      dictLookup r "generated_text" = none →
      extract_report r = .str (pyStr (.obj r)) ∧
        (pyStr (.obj r)).length ≠ 0) := by
  refine ⟨fun h1 => ?_, fun h1 h2 => ?_, fun h1 h2 h3 => ?_,
    fun h1 h2 h3 => ⟨?_, pyStr_obj_length r⟩,
    fun h1 => ?_, fun h1 h2 => ?_, fun h1 h2 h3 => ?_,
    fun h1 h2 h3 => ⟨?_, pyStr_obj_length r⟩,
    fun h1 => ?_, fun h1 h2 => ?_, fun h1 h2 h3 => ?_,
    fun h1 h2 h3 => ⟨?_, pyStr_obj_length r⟩⟩ <;>
  simp_all [extract_transcription, extract_summary, extract_report]

/-- Witness for C6: on the body `{"text": "T"}` (no `content` field) the
transcription client returns the `text` field. -/
theorem C6_witness :
    extract_transcription [("text", Json.str "T")] = Json.str "T" :=
  (C6_response_probing_order [("text", Json.str "T")] (Json.str "T")).2.1 rfl rfl

/-- C7: in a run whose media stages succeed, if the transcription,
summarization or report stage yields an empty result — `None` after a
transport failure, or a response whose probed payload is Python-falsy
(the empty string) — the orchestrator returns that stage's own error
dictionary, and the empty output never reaches a later stage (the later
stages' invocation counters are unchanged) and never becomes a success
payload. -/
theorem C7_empty_output_is_stage_failure (url : String) (env : Env)
    (st : PState) (hf : env.fetch = .ok) (hc : env.conv = .ok) :
    (yieldsEmptyText env.stt extract_transcription →
      (process_youtube_url url env st).1 =
        errDict "Failed to convert speech to text" ∧
      (process_youtube_url url env st).2.nSum = st.nSum ∧
      (process_youtube_url url env st).2.nReport = st.nReport) ∧
    (yieldsText env.stt extract_transcription →
     yieldsEmptyText env.summ extract_summary →
      (process_youtube_url url env st).1 = errDict "Failed to generate summary" ∧
      (process_youtube_url url env st).2.nReport = st.nReport) ∧
    (yieldsText env.stt extract_transcription →
     yieldsText env.summ extract_summary →
     yieldsEmptyText env.rep extract_report →
      (process_youtube_url url env st).1 = errDict "Failed to generate report") := by
  refine ⟨?_, ?_, ?_⟩
  · rintro (⟨m, hm⟩ | ⟨r, hr, hv⟩)
    · simp [process_youtube_url, runBody, download_youtube_video,
        convert_video_to_audio, speech_to_text, summarize_text, generate_report,
        videoExists, audioExists, cleanup, errDict, hf, hc, hm]
    · simp [process_youtube_url, runBody, download_youtube_video,
        convert_video_to_audio, speech_to_text, summarize_text, generate_report,
        videoExists, audioExists, cleanup, errDict, hf, hc, hr, hv]
  · rintro ⟨r1, hr1, hv1⟩ (⟨m, hm⟩ | ⟨r2, hr2, hv2⟩)
    · simp [process_youtube_url, runBody, download_youtube_video,
        convert_video_to_audio, speech_to_text, summarize_text, generate_report,
        videoExists, audioExists, cleanup, errDict, hf, hc, hr1, hv1, hm]
    · simp [process_youtube_url, runBody, download_youtube_video,
        convert_video_to_audio, speech_to_text, summarize_text, generate_report,
        videoExists, audioExists, cleanup, errDict, hf, hc, hr1, hv1, hr2, hv2]
  · rintro ⟨r1, hr1, hv1⟩ ⟨r2, hr2, hv2⟩ (⟨m, hm⟩ | ⟨r3, hr3, hv3⟩)
    · simp [process_youtube_url, runBody, download_youtube_video,
        convert_video_to_audio, speech_to_text, summarize_text, generate_report,
        videoExists, audioExists, cleanup, errDict, hf, hc, hr1, hv1, hr2, hv2, hm]
    · simp [process_youtube_url, runBody, download_youtube_video,
        convert_video_to_audio, speech_to_text, summarize_text, generate_report,
        videoExists, audioExists, cleanup, errDict, hf, hc, hr1, hv1, hr2, hv2,
        hr3, hv3]

/-- Witness for C7: a concrete run whose transcription response carries an
empty `content` payload is reported as a speech-to-text failure with the
later stages never invoked. -/
theorem C7_witness :
    (process_youtube_url "u" { envOk with stt := respContent "" } st0).1 =
      errDict "Failed to convert speech to text" ∧
    (process_youtube_url "u" { envOk with stt := respContent "" } st0).2.nSum =
      st0.nSum ∧
    (process_youtube_url "u" { envOk with stt := respContent "" } st0).2.nReport =
      st0.nReport :=
  (C7_empty_output_is_stage_failure "u" { envOk with stt := respContent "" }
      st0 rfl rfl).1
    (Or.inr ⟨[("content", .str "")], rfl, rfl⟩)

/-- C9 (counterexample): on one pipeline instance, the workspace created at
construction is destroyed by the first run's teardown and never recreated:
the state in which a second sequential run begins has no workspace
directory, and neither the first nor a second run ever invokes the
workspace setup (its ghost counter stays at the value `__init__` left) —
so "each run begins with a freshly recreated workspace" and "no run starts
without a workspace" are false for every run after the first. -/
theorem C9_counterexample :
    st0.dirExists = true ∧
    (process_youtube_url "https://youtu.be/a" envOk st0).2.dirExists = false ∧
    (process_youtube_url "https://youtu.be/a" envOk st0).2.nSetup = st0.nSetup ∧
    (process_youtube_url "u2" envOk
        (process_youtube_url "https://youtu.be/a" envOk st0).2).2.nSetup =
      st0.nSetup :=
  ⟨rfl, rfl, rfl, rfl⟩

/-- C9 (amended): the destroy-and-recreate of the workspace happens exactly
once, at pipeline construction (`_setup_temp_directory`, called from
`__init__`, leaves a fresh empty directory); `process_youtube_url` never
performs workspace setup, and every run ends with the workspace deleted —
so on the same instance the first run begins with a fresh workspace and
every later run begins with none. -/
theorem C9_workspace_fresh_only_at_construction (fs st : PState)
    (url : String) (env : Env) :
    setup_temp_directory fs =
      { fs with dirExists := true, hasVideo := false, hasAudio := false
                nSetup := fs.nSetup + 1 } ∧
    (process_youtube_url url env st).2.nSetup = st.nSetup ∧
    (process_youtube_url url env st).2.dirExists = false := by
  refine ⟨rfl, ?_, ?_⟩
  · rw [process_snd, (cleanup_spec _).2.2, runBody_nSetup]
  · rw [process_snd]
    exact (cleanup_spec _).1
